import Mathlib

/-!
Verification of the HEDGE-FUND analysis server's job-orchestration slice.

The development shallowly embeds:
* the `/api/analysis/email` endpoint's drain-and-email loop
  (`src/server/src/api/routes/analysis.py`, `generate_and_email_analysis`);
* the cancellation endpoints `/cancel/<id>`, `/cancel-all`, `/active` and the
  MCP notification endpoint from the same file;
* the request registry / cancellation manager and the analysis pipeline,
  which live outside the provided sources and are therefore modelled from the
  specification (sections 3, 4.1-4.4, 7);
* `GmailService.send_email` (`src/server/src/services/gmail_service.py`).

Python JSON values are embedded as the inductive `Json`; a chunk yielded by
the analysis service is modelled as `Option Json`: `none` stands for a chunk
on which `json.loads` raises, `some j` for a chunk parsing to `j`.  Streams
are embedded as lists (the generator is finite and pull-based; a pure list
captures the produced sequence, and consumption of a pure value cannot
mutate it).
-/

/-- Embedding of a Python JSON value (result of `json.loads`).  `null`
doubles as Python `None`. Numbers are modelled as rationals. -/
inductive Json where
  | null : Json
  | bool : Bool → Json
  | num : ℚ → Json
  | str : String → Json
  | arr : List Json → Json
  | obj : List (String × Json) → Json

/-- Association lookup in an object's field list, first match wins
(Python dicts have unique keys, so this is `dict.get` restricted to
present keys). -/
def lookupField : List (String × Json) → String → Option Json
  | [], _ => none
  | (k, v) :: rest, key => if k = key then some v else lookupField rest key

/-- Embedding of `parsed.get(key)` for `parsed` a dict: `none` when `parsed`
is not a dict or the key is absent. -/
def Json.lookup : Json → String → Option Json
  | Json.obj fs, k => lookupField fs k
  | _, _ => none

/-- Whether the value is a Python dict (`isinstance(parsed, dict)`). -/
def Json.isObj : Json → Bool
  | Json.obj _ => true
  | _ => false

/-- Whether the value is JSON null (Python `None`). -/
def Json.isNull : Json → Bool
  | Json.null => true
  | _ => false

/-- Embedding of `parsed.get(key)` as used to read a payload: a key bound to
JSON null reads back as Python `None`, indistinguishable from an absent key,
so both map to `none`. -/
def pyGet (j : Json) (k : String) : Option Json :=
  match j.lookup k with
  | some Json.null => none
  | some v => some v
  | none => none

/-- Serialize a character sequence for JSON output, escaping backslash and
quote. -/
def escapeChars : List Char → String
  | [] => ""
  | c :: rest =>
    (if c = '\\' then "\\\\" else if c = '"' then "\\\"" else String.singleton c)
      ++ escapeChars rest

/-- Serialize a string for JSON output, escaping backslash and quote. -/
def escapeString (s : String) : String := escapeChars s.data

mutual

/-- Model of the external library call `json.dumps` (the exact whitespace of
`indent=2` is immaterial to the claims; serialization is modelled as this
deterministic function of the value). -/
def Json.dumps : Json → String
  | Json.null => "null"
  | Json.bool true => "true"
  | Json.bool false => "false"
  | Json.num q => toString q
  | Json.str s => "\"" ++ escapeString s ++ "\""
  | Json.arr xs => "[" ++ dumpsArr xs ++ "]"
  | Json.obj fs => "\x7b" ++ dumpsObj fs ++ "\x7d"

/-- Serialize an array's elements, comma-separated. -/
def dumpsArr : List Json → String
  | [] => ""
  | [x] => Json.dumps x
  | x :: xs => Json.dumps x ++ ", " ++ dumpsArr xs

/-- Serialize an object's fields, comma-separated. -/
def dumpsObj : List (String × Json) → String
  | [] => ""
  | [(k, v)] => "\"" ++ escapeString k ++ "\": " ++ Json.dumps v
  | (k, v) :: fs => "\"" ++ escapeString k ++ "\": " ++ Json.dumps v ++ ", " ++ dumpsObj fs

end

/-- A chunk as seen by the email endpoint's loop body: `none` when
`json.loads(chunk)` raised (the loop `continue`s), `some j` otherwise. -/
abbrev Chunk := Option Json

/-- Whether a parsed chunk is a result chunk: the test
`isinstance(parsed, dict) and parsed.get('type') == 'result'` from the
endpoint's drain loop. -/
def isResultDict (parsed : Json) : Bool :=
  parsed.isObj &&
    (match parsed.lookup "type" with
     | some (Json.str s) => s = "result"
     | _ => false)

/-- Result-chunk test lifted to a raw chunk (an unparseable chunk is never a
result chunk). -/
def isResultChunk : Chunk → Bool
  | none => false
  | some parsed => isResultDict parsed

/-- One iteration of the endpoint's drain loop over `result_payload`:
an unparseable chunk is skipped; a result chunk overwrites the payload with
its `data` field (Python `None` when absent or null); every other chunk
leaves the payload unchanged. -/
def drainStep (acc : Option Json) (c : Chunk) : Option Json :=
  match c with
  | none => acc
  | some parsed => if isResultDict parsed then pyGet parsed "data" else acc

/-- The full drain: `result_payload` after the `for chunk in ...` loop,
starting from `None`. -/
def drainResult (chunks : List Chunk) : Option Json :=
  chunks.foldl drainStep none

/-- One email handed to the email port by the endpoint. -/
structure SentEmail where
  to_address : String
  subject : String
  text_body : String
  html_body : String
deriving DecidableEq

/-- Observable outcome of the `/api/analysis/email` endpoint: HTTP status,
the emails sent through the port, and the error message of the JSON body
when the request failed. -/
structure EmailEndpointResult where
  status : Nat
  emails : List SentEmail
  errMsg : Option String
deriving DecidableEq

/-- Embedding of `generate_and_email_analysis` (analysis.py lines 76-105),
from the point where the request has been validated: drain the service's
chunks, and either report `Analysis produced no result` with HTTP 500 and no
email, or send exactly one email built from the final result payload and
answer HTTP 200.  Request parsing and validation (the 400 paths) live in
modules outside the provided sources and are not needed by the claims. -/
def generate_and_email_analysis (tickers : List String) (email : String)
    (chunks : List Chunk) : EmailEndpointResult :=
  match drainResult chunks with
  | none => { status := 500, emails := [], errMsg := some "Analysis produced no result" }
  | some payload =>
    let text_body := Json.dumps payload
    { status := 200
      emails := [{ to_address := email
                   subject := "Analysis Result for " ++ String.intercalate ", " tickers
                   text_body := text_body
                   html_body := "<pre>" ++ text_body ++ "</pre>" }]
      errMsg := none }

/-- Kind of a terminal `Error` event (spec section 3, `Error{kind: ...}`). -/
inductive ErrorKind where
  | stageFailure : ErrorKind
  | cancelled : ErrorKind
deriving DecidableEq

/-- Modelled from the spec: the orchestrator's `Event` variant (spec section
3); `src/services/analysis_service.py` is not under the provided sources.
`Progress\x7bstage, message, progress in [0,1]\x7d`, `Result\x7bdata\x7d`,
`Error\x7bkind, message\x7d`; payloads are `Json` values. -/
inductive Event where
  | progress : String → String → ℚ → Event
  | result : Json → Event
  | error : ErrorKind → String → Event

/-- Whether an event is a `Progress` event. -/
def Event.isProgress : Event → Bool
  | Event.progress _ _ _ => true
  | _ => false

/-- Whether an event is terminal (`Result` or `Error`, spec section 3). -/
def Event.isTerminal : Event → Bool
  | Event.result _ => true
  | Event.error _ _ => true
  | _ => false

/-- Whether an event is a `Result` event. -/
def Event.isResult : Event → Bool
  | Event.result _ => true
  | _ => false

/-- Modelled from the spec: one `Stage`, an opaque capability
`(context) -> StageOutput` that may fail with a message (spec section 3);
the concrete stages are external collaborators. -/
structure Stage where
  name : String
  run : Json → Except String Json

/-- Modelled from the spec: the orchestrator's loop (spec section 4.3) from
the boundary check with 0-based index `i`.  `sched i` is the token state
`token.isCancelled()` observed at that check; `total` is the stage count
fixed at entry.  Before each stage the token is checked (cancelled: one
`Error Cancelled` and stop); a failing stage yields one
`Error StageFailure` with that failure's message and stops; a succeeding
stage yields a `Progress` with `progress = (i+1)/total`; after the last
stage one `Result` carries the aggregated (threaded) output. -/
def runFrom (total : Nat) (sched : Nat → Bool) : Nat → List Stage → Json → List Event
  | _, [], ctx => [Event.result ctx]
  | i, s :: rest, ctx =>
    if sched i then [Event.error ErrorKind.cancelled "Request cancelled"]
    else
      match s.run ctx with
      | Except.error m => [Event.error ErrorKind.stageFailure m]
      | Except.ok ctx' =>
        Event.progress s.name (s.name ++ " completed") ((i + 1 : ℚ) / (total : ℚ))
          :: runFrom total sched (i + 1) rest ctx'

/-- Modelled from the spec: `run(stages, context, token) -> EventStream`
(spec section 4.3); the stream is embedded as the produced list of events. -/
def runPipeline (stages : List Stage) (ctx : Json) (sched : Nat → Bool) : List Event :=
  runFrom stages.length sched 0 stages ctx

/-- The wire chunk for one event: one JSON object with a `type` field in
`\x7bprogress, result, error\x7d` plus the event's payload fields (spec
section 6).  The transport serializes this object and the email endpoint
re-parses it, so the endpoint's parsed chunk for an event is exactly this
value. -/
def eventToChunk : Event → Json
  | Event.progress stage msg p =>
    Json.obj [("type", Json.str "progress"), ("stage", Json.str stage),
              ("message", Json.str msg), ("progress", Json.num p)]
  | Event.result d =>
    Json.obj [("type", Json.str "result"), ("data", d)]
  | Event.error k m =>
    Json.obj [("type", Json.str "error"),
              ("kind", Json.str (match k with
                 | ErrorKind.stageFailure => "StageFailure"
                 | ErrorKind.cancelled => "Cancelled")),
              ("message", Json.str m)]

/-- The chunk stream a consumer drains for one run. -/
def runChunks (stages : List Stage) (ctx : Json) (sched : Nat → Bool) : List Chunk :=
  (runPipeline stages ctx sched).map (fun e => some (eventToChunk e))

/-- Modelled from the spec: the request registry / cancellation manager
(spec sections 3, 4.1; `src/utils/cancellation.py` is not under the provided
sources).  Each entry pairs an active request id with its token's
`cancelled` flag; tokens are shared by reference, so the flag stored here is
the one the orchestrator run observes.  Each public operation is atomic
(spec section 5: all mutation goes through operations that are effectively
atomic with respect to each other). -/
structure CancellationManager where
  entries : List (String × Bool)
deriving DecidableEq

/-- Association lookup over registry entries. -/
def lookupFlag : List (String × Bool) → String → Option Bool
  | [], _ => none
  | (i, c) :: rest, id => if i = id then some c else lookupFlag rest id

/-- The token flag of an active request: `none` when the id is not active. -/
def findToken (st : CancellationManager) (id : String) : Option Bool :=
  lookupFlag st.entries id

/-- Whether an active entry exists for the id. -/
def isActive (st : CancellationManager) (id : String) : Bool :=
  (findToken st id).isSome

/-- Modelled from the spec: `cancel(id) -> bool` — if an active entry exists
for `id`, call `cancel()` on its token (set the shared flag, entry kept) and
return `true`; otherwise return `false` (spec section 4.1). -/
def cancel_request (st : CancellationManager) (id : String) : Bool × CancellationManager :=
  match findToken st id with
  | some _ =>
    (true, ⟨st.entries.map (fun p => if p.1 = id then (p.1, true) else p)⟩)
  | none => (false, st)

/-- Modelled from the spec: `activeIds()` — snapshot of currently active
ids (spec section 4.1). -/
def get_active_request_ids (st : CancellationManager) : List String :=
  st.entries.map Prod.fst

/-- Modelled from the spec: `activeCount()` — size of the active set at call
time (spec section 4.1). -/
def get_active_request_count (st : CancellationManager) : Nat :=
  st.entries.length

/-- Modelled from the spec: `cancelAll() -> int` — atomically snapshot the
active set, cancel each snapshotted token, return the count cancelled
(spec section 4.1). -/
def cancel_all_requests (st : CancellationManager) : Nat × CancellationManager :=
  (st.entries.length, ⟨st.entries.map (fun p => (p.1, true))⟩)

/-- Modelled from the spec: `register(id)` for a caller-supplied fresh id —
insert an `ActiveRequest` with a fresh (uncancelled) token; an already
active id is a `RegistryConflict` and leaves the registry unchanged
(spec section 4.1). -/
def register (st : CancellationManager) (id : String) : CancellationManager :=
  if isActive st id then st else ⟨st.entries ++ [(id, false)]⟩

/-- Embedding of the `/api/analysis/cancel/<request_id>` endpoint
(analysis.py lines 107-127): `cancel_request` decides between 200 with
`cancelled: true` and 404 with `cancelled: false`; the result is the pair
(HTTP status, `cancelled` field) together with the registry state after the
call. -/
def cancel_analysis (st : CancellationManager) (request_id : String) :
    (Nat × Bool) × CancellationManager :=
  let r := cancel_request st request_id
  if r.1 then ((200, true), r.2) else ((404, false), r.2)

/-- Embedding of the `/api/analysis/active` endpoint (analysis.py lines
129-144): one snapshot list is taken and both response fields are computed
from it. -/
def get_active_requests (st : CancellationManager) : List String × Nat :=
  let active_requests := get_active_request_ids st
  (active_requests, active_requests.length)

/-- Embedding of the `/api/analysis/cancel-all` endpoint (analysis.py lines
146-162).  The endpoint makes two separate manager calls: it first reads
`get_active_request_count()`, then calls `cancel_all_requests()` discarding
that call's own count; only the individual manager operations are atomic.
`interleaved` lists the ids registered by concurrent callers between the
endpoint's two calls (empty when nothing interleaves).  The result is the
`cancelled_count` response field and the final registry state. -/
def cancel_all_requests_endpoint (st : CancellationManager)
    (interleaved : List String) : Nat × CancellationManager :=
  let active_count := get_active_request_count st
  let st1 := interleaved.foldl register st
  (active_count, (cancel_all_requests st1).2)

/-- The fields of an MCP notification body the endpoint inspects.  An absent
key and a key bound to JSON null are both `none` (Python `dict.get`);
`requestId` keeps the empty string distinct because the code tests
truthiness (`if not request_id`). -/
structure MCPData where
  jsonrpc : Option String
  method : Option String
  requestId : Option String
deriving DecidableEq

/-- Embedding of the `/api/mcp/notification` endpoint (analysis.py lines
167-212).  `data = none` models a request whose body is missing or not JSON
(`if not data`).  The result is (HTTP status, response body) and the
registry state after the call; the 202 branch returns the empty body `''`
whatever `cancel_request` returned. -/
def handle_mcp_notification (st : CancellationManager) (data : Option MCPData) :
    (Nat × String) × CancellationManager :=
  match data with
  | none => ((400, "No JSON data provided"), st)
  | some d =>
    if d.jsonrpc.isNone || d.method.isNone then
      ((400, "Invalid JSON-RPC format"), st)
    else if d.jsonrpc ≠ some "2.0" then
      ((400, "Unsupported JSON-RPC version"), st)
    else
      match d.method with
      | some m =>
        if m = "notifications/cancelled" then
          match d.requestId with
          | none => ((400, "Missing requestId in cancellation notification"), st)
          | some rid =>
            if rid = "" then
              ((400, "Missing requestId in cancellation notification"), st)
            else
              ((202, ""), (cancel_request st rid).2)
        else ((400, "Unknown notification method: " ++ m), st)
      | none => ((400, "Invalid JSON-RPC format"), st)

/-- Embedding of the `EmailResponse` dataclass of
`src/server/src/services/gmail_service.py` (the `timestamp` field, an
external clock read, is omitted). -/
structure EmailResponse where
  success : Bool
  message_id : Option String
  error : Option String
  status_code : Option Nat
deriving DecidableEq

/-- Outcome of the external Gmail API call
`service.users().messages().send(...).execute()`: it returns a message id,
raises an `HttpError`, or raises some other exception. -/
inductive GmailApiOutcome where
  | ok : String → GmailApiOutcome
  | httpError : Nat → String → GmailApiOutcome
  | exn : String → GmailApiOutcome
deriving DecidableEq

/-- Embedding of `GmailService.send_email` (gmail_service.py lines 147-202).
`authenticated` is whether `self.service` is set; `api` is the external
call's outcome, reached only when the guards pass.  Every path returns an
`EmailResponse`: the two `ValueError`s raised inside the `try` are caught by
the generic `except Exception` handler, an `HttpError` by its own handler. -/
def send_email (authenticated : Bool) (to_addr subject body : String)
    (api : GmailApiOutcome) : EmailResponse :=
  if authenticated = false then
    { success := false, message_id := none
      error := some "Error sending email: Gmail service not authenticated"
      status_code := none }
  else if to_addr = "" || subject = "" || body = "" then
    { success := false, message_id := none
      error := some "Error sending email: to, subject, and body are required"
      status_code := none }
  else
    match api with
    | GmailApiOutcome.ok mid =>
      { success := true, message_id := some mid, error := none, status_code := some 200 }
    | GmailApiOutcome.httpError code m =>
      { success := false, message_id := none
        error := some ("Gmail API error: " ++ toString code ++ " - " ++ m)
        status_code := some code }
    | GmailApiOutcome.exn m =>
      { success := false, message_id := none
        error := some ("Error sending email: " ++ m)
        status_code := none }

/-- Folding the drain step over chunks none of which is a result chunk
leaves the accumulated payload unchanged. -/
theorem foldl_drainStep_no_result (l : List Chunk) (acc : Option Json)
    (h : ∀ c ∈ l, isResultChunk c = false) : l.foldl drainStep acc = acc := by
  induction l generalizing acc with
  | nil => rfl
  | cons c rest ih =>
    have hc : isResultChunk c = false := h c (List.mem_cons_self c rest)
    have hstep : drainStep acc c = acc := by
      cases c with
      | none => rfl
      | some parsed =>
        simp [isResultChunk] at hc
        simp [drainStep, hc]
    rw [List.foldl_cons, hstep]
    exact ih _ (fun c hc => h c (List.mem_cons_of_mem _ hc))

/-- An unparseable chunk is invisible to the drain. -/
theorem drainResult_skips_unparseable (l1 l2 : List Chunk) :
    drainResult (l1 ++ none :: l2) = drainResult (l1 ++ l2) := by
  unfold drainResult
  rw [List.foldl_append, List.foldl_append, List.foldl_cons]
  rfl

/-- Reading `data` out of a result dict whose `data` field is a non-null
value yields that value. -/
theorem pyGet_data_of_lookup (fields : List (String × Json)) (d : Json)
    (hdata : Json.lookup (Json.obj fields) "data" = some d)
    (hnn : d.isNull = false) : pyGet (Json.obj fields) "data" = some d := by
  unfold pyGet
  rw [hdata]
  cases d <;> simp_all [Json.isNull]

/-- C1 counterexample: a sequence whose terminal Result chunk carries
`data: null` — producible by the model's own pipeline from a stage whose
output is `null` — makes the endpoint send no email and answer HTTP 500
`Analysis produced no result` instead of the claimed single email and HTTP
200: `parsed.get('data')` is Python `None`, so `result_payload` stays `None`
(analysis.py lines 84-87). -/
theorem email_endpoint_null_result_counterexample :
    generate_and_email_analysis ["AAPL"] "user@example.com"
        [some (eventToChunk (Event.progress "A" "A completed" 1)),
         some (eventToChunk (Event.result Json.null))] =
      { status := 500, emails := [], errMsg := some "Analysis produced no result" } := by
  rfl

/-- C1 (amended): the `/api/analysis/email` endpoint drains the whole
stream and extracts the `data` of the terminal Result chunk; when that
payload is a non-null value, it sends exactly one email to the requested
address whose text body is the payload serialized as JSON and responds HTTP
200; when the terminal Result's `data` is JSON null or absent (Python
`None`), it sends no email and responds HTTP 500 `Analysis produced no
result`.  Draining is the pure fold `drainResult` over the produced chunk
list, which it cannot alter. -/
theorem email_endpoint_terminal_result_cases (tickers : List String)
    (email : String) (pre : List Chunk) (fields : List (String × Json))
    (hty : Json.lookup (Json.obj fields) "type" = some (Json.str "result")) :
    (∀ d : Json, Json.lookup (Json.obj fields) "data" = some d →
      d.isNull = false →
      generate_and_email_analysis tickers email (pre ++ [some (Json.obj fields)]) =
        { status := 200
          emails := [{ to_address := email
                       subject := "Analysis Result for " ++ String.intercalate ", " tickers
                       text_body := Json.dumps d
                       html_body := "<pre>" ++ Json.dumps d ++ "</pre>" }]
          errMsg := none }) ∧
    (Json.lookup (Json.obj fields) "data" = some Json.null ∨
        Json.lookup (Json.obj fields) "data" = none →
      generate_and_email_analysis tickers email (pre ++ [some (Json.obj fields)]) =
        { status := 500, emails := [], errMsg := some "Analysis produced no result" }) := by
  have hres : isResultDict (Json.obj fields) = true := by
    simp [isResultDict, Json.isObj, hty]
  have hdrain : ∀ v : Option Json, pyGet (Json.obj fields) "data" = v →
      drainResult (pre ++ [some (Json.obj fields)]) = v := by
    intro v hv
    unfold drainResult
    rw [List.foldl_append, List.foldl_cons, List.foldl_nil]
    simp [drainStep, hres, hv]
  constructor
  · intro d hdata hnn
    have hpy := pyGet_data_of_lookup fields d hdata hnn
    simp [generate_and_email_analysis, hdrain _ hpy]
  · intro hdata
    have hpy : pyGet (Json.obj fields) "data" = none := by
      rcases hdata with h | h <;> simp [pyGet, h]
    simp [generate_and_email_analysis, hdrain _ hpy]

/-- Closed instance of the amended C1 theorem: a non-null payload yields
exactly one email and HTTP 200; a null payload yields HTTP 500 and no
email. -/
theorem email_endpoint_terminal_result_cases_witness :
    generate_and_email_analysis ["AAPL"] "user@example.com"
        ([] ++ [some (Json.obj [("type", Json.str "result"), ("data", Json.str "ok")])]) =
      { status := 200
        emails := [{ to_address := "user@example.com"
                     subject := "Analysis Result for AAPL"
                     text_body := "\"ok\""
                     html_body := "<pre>\"ok\"</pre>" }]
        errMsg := none } ∧
    generate_and_email_analysis ["AAPL"] "user@example.com"
        ([] ++ [some (Json.obj [("type", Json.str "result"), ("data", Json.null)])]) =
      { status := 500, emails := [], errMsg := some "Analysis produced no result" } := by
  have hd : Json.dumps (Json.str "ok") = "\"ok\"" := by
    simp [Json.dumps]
    rfl
  have h1 := (email_endpoint_terminal_result_cases ["AAPL"] "user@example.com" []
    [("type", Json.str "result"), ("data", Json.str "ok")] rfl).1
    (Json.str "ok") rfl rfl
  have h2 := (email_endpoint_terminal_result_cases ["AAPL"] "user@example.com" []
    [("type", Json.str "result"), ("data", Json.null)] rfl).2 (Or.inl rfl)
  rw [hd] at h1
  exact ⟨h1, h2⟩

/-- C4: when the event sequence ends with an Error chunk (any kind, any
message) and contains no result chunk, the `/api/analysis/email` endpoint
sends no email and responds HTTP 500 with the message `Analysis produced no
result`; the outcome does not depend on the error's kind or message, and
(second conjunct) a chunk that does not parse as JSON is silently skipped by
the drain. -/
theorem email_endpoint_error_terminal (tickers : List String) (email : String)
    (pre : List Chunk) (k : ErrorKind) (m : String)
    (hnores : ∀ c ∈ pre, isResultChunk c = false) :
    generate_and_email_analysis tickers email
        (pre ++ [some (eventToChunk (Event.error k m))]) =
      { status := 500, emails := [], errMsg := some "Analysis produced no result" } ∧
    ∀ l1 l2 : List Chunk,
      generate_and_email_analysis tickers email (l1 ++ none :: l2) =
        generate_and_email_analysis tickers email (l1 ++ l2) := by
  constructor
  · have herr : isResultChunk (some (eventToChunk (Event.error k m))) = false := by
      cases k <;> rfl
    have hall : ∀ c ∈ pre ++ [some (eventToChunk (Event.error k m))],
        isResultChunk c = false := by
      intro c hc
      rcases List.mem_append.mp hc with h1 | h2
      · exact hnores c h1
      · rcases List.mem_singleton.mp h2 with rfl
        exact herr
    have hdrain : drainResult (pre ++ [some (eventToChunk (Event.error k m))]) = none :=
      foldl_drainStep_no_result _ none hall
    simp [generate_and_email_analysis, hdrain]
  · intro l1 l2
    simp [generate_and_email_analysis, drainResult_skips_unparseable]

/-- Closed instance of the C4 theorem: a lone StageFailure terminal chunk
yields HTTP 500, no email, and the fixed message, and inserting an
unparseable chunk changes nothing. -/
theorem email_endpoint_error_terminal_witness :
    generate_and_email_analysis ["AAPL"] "user@example.com"
        ([] ++ [some (eventToChunk (Event.error ErrorKind.stageFailure "boom"))]) =
      { status := 500, emails := [], errMsg := some "Analysis produced no result" } ∧
    ∀ l1 l2 : List Chunk,
      generate_and_email_analysis ["AAPL"] "user@example.com" (l1 ++ none :: l2) =
        generate_and_email_analysis ["AAPL"] "user@example.com" (l1 ++ l2) :=
  email_endpoint_error_terminal ["AAPL"] "user@example.com" []
    ErrorKind.stageFailure "boom" (by simp)

/-- Number of terminal events in a produced sequence. -/
def countTerminal (l : List Event) : Nat :=
  (l.filter Event.isTerminal).length

/-- Number of result chunks in a drained chunk sequence. -/
def countResultChunks (l : List Chunk) : Nat :=
  (l.filter isResultChunk).length

/-- A progress event is not terminal. -/
theorem not_terminal_of_progress (e : Event) (h : e.isProgress = true) :
    e.isTerminal = false := by
  cases e <;> simp_all [Event.isProgress, Event.isTerminal]

/-- The wire chunk of an event is a result chunk exactly when the event is a
`Result`. -/
theorem isResultChunk_eventToChunk (e : Event) :
    isResultChunk (some (eventToChunk e)) = e.isResult := by
  cases e with
  | progress s m p => rfl
  | result d => rfl
  | error k m => cases k <;> rfl

/-- Shape of every orchestrator run suffix: some progress events followed by
exactly one terminal event. -/
theorem runFrom_shape (total : Nat) (sched : Nat → Bool) (stages : List Stage) :
    ∀ (i : Nat) (ctx : Json), ∃ ps t,
      runFrom total sched i stages ctx = ps ++ [t] ∧
      (∀ e ∈ ps, e.isProgress = true) ∧ t.isTerminal = true := by
  induction stages with
  | nil =>
    intro i ctx
    exact ⟨[], Event.result ctx, rfl, by simp, rfl⟩
  | cons s rest ih =>
    intro i ctx
    by_cases hc : sched i = true
    · exact ⟨[], Event.error ErrorKind.cancelled "Request cancelled",
        by simp [runFrom, hc], by simp, rfl⟩
    · rcases hr : s.run ctx with m | ctx'
      · exact ⟨[], Event.error ErrorKind.stageFailure m,
          by simp [runFrom, hc, hr], by simp, rfl⟩
      · rcases ih (i + 1) ctx' with ⟨ps, t, heq, hps, ht⟩
        refine ⟨Event.progress s.name (s.name ++ " completed")
            ((i + 1 : ℚ) / (total : ℚ)) :: ps, t, ?_, ?_, ht⟩
        · simp [runFrom, hc, hr, heq]
        · intro e he
          rcases List.mem_cons.mp he with rfl | hmem
          · rfl
          · exact hps e hmem

/-- C6: failures inside a pipeline run are delivered as terminal Error
values in the stream, never raised out of it.  First conjunct: every run's
sequence is progress events followed by one terminal event, so a drain never
aborts mid-stream; second conjunct: a consumer draining the serialized
stream through the email endpoint's loop always obtains a well-defined
response (200 or 500); third conjunct: when the orchestrator reaches a stage
whose execution fails, the failure becomes the value
`Error StageFailure <message>` ending the stream. -/
theorem pipeline_failures_are_values (stages : List Stage) (ctx : Json)
    (sched : Nat → Bool) :
    (∃ ps t, runPipeline stages ctx sched = ps ++ [t] ∧
      (∀ e ∈ ps, e.isProgress = true) ∧ t.isTerminal = true) ∧
    (∀ (tickers : List String) (email : String),
      (generate_and_email_analysis tickers email (runChunks stages ctx sched)).status = 200 ∨
      (generate_and_email_analysis tickers email (runChunks stages ctx sched)).status = 500) ∧
    (∀ (total i : Nat) (s : Stage) (rest : List Stage) (c : Json) (m : String),
      sched i = false → s.run c = Except.error m →
      runFrom total sched i (s :: rest) c = [Event.error ErrorKind.stageFailure m]) := by
  refine ⟨runFrom_shape stages.length sched stages 0 ctx, ?_, ?_⟩
  · intro tickers email
    unfold generate_and_email_analysis
    rcases drainResult (runChunks stages ctx sched) with _ | payload
    · right; rfl
    · left; rfl
  · intro total i s rest c m hc hr
    simp [runFrom, hc, hr]

/-- Closed instance of the C6 theorem: a single stage that fails with
message `boom` produces exactly the terminal StageFailure error value. -/
theorem pipeline_failures_are_values_witness :
    runFrom 1 (fun _ => false) 0 [⟨"A", fun _ => Except.error "boom"⟩] Json.null =
      [Event.error ErrorKind.stageFailure "boom"] :=
  (pipeline_failures_are_values [⟨"A", fun _ => Except.error "boom"⟩] Json.null
    (fun _ => false)).2.2 1 0 ⟨"A", fun _ => Except.error "boom"⟩ [] Json.null
    "boom" rfl rfl

/-- C7: every run's event sequence is any number of progress events followed
by exactly one terminal event (`Result` or `Error`), the terminal event is
last, nothing follows it, and the serialized chunk sequence a consumer
drains contains at most one chunk of type `result`. -/
theorem pipeline_single_terminal (stages : List Stage) (ctx : Json)
    (sched : Nat → Bool) :
    ∃ ps t, runPipeline stages ctx sched = ps ++ [t] ∧
      (∀ e ∈ ps, e.isProgress = true) ∧ t.isTerminal = true ∧
      countTerminal (runPipeline stages ctx sched) = 1 ∧
      countResultChunks (runChunks stages ctx sched) ≤ 1 := by
  rcases runFrom_shape stages.length sched stages 0 ctx with ⟨ps, t, heq, hps, ht⟩
  refine ⟨ps, t, heq, hps, ht, ?_, ?_⟩
  · unfold countTerminal runPipeline at *
    rw [heq, List.filter_append]
    have hfps : ps.filter Event.isTerminal = [] := by
      rw [List.filter_eq_nil_iff]
      intro e he
      simp [not_terminal_of_progress e (hps e he)]
    rw [hfps, List.nil_append]
    simp [List.filter, ht]
  · unfold countResultChunks runChunks runPipeline at *
    rw [heq, List.map_append, List.filter_append, List.length_append]
    have hfps : (ps.map (fun e => some (eventToChunk e))).filter isResultChunk = [] := by
      rw [List.filter_eq_nil_iff]
      intro c hc
      rcases List.mem_map.mp hc with ⟨e, he, rfl⟩
      rw [isResultChunk_eventToChunk]
      have hpe := hps e he
      cases e with
      | progress s m p => simp [Event.isResult]
      | result d => simp [Event.isProgress] at hpe
      | error k m => simp [Event.isResult]
    rw [hfps]
    simp only [List.length_nil, Nat.zero_add, List.map_cons, List.map_nil]
    cases t <;> simp [List.filter, isResultChunk_eventToChunk, Event.isResult]

/-- Setting the flag of `id` in the entry list is visible to a later lookup
of `id` exactly as mapping its found flag to `true`. -/
theorem lookupFlag_set (l : List (String × Bool)) (id : String) :
    lookupFlag (l.map fun p => if p.1 = id then (p.1, true) else p) id =
      (lookupFlag l id).map (fun _ => true) := by
  induction l with
  | nil => rfl
  | cons p rest ih =>
    obtain ⟨i, c⟩ := p
    simp only [List.map_cons]
    by_cases h : i = id
    · subst h
      rw [if_pos rfl]
      simp [lookupFlag]
    · rw [if_neg h]
      simp [lookupFlag, h, ih]

/-- C2: the `/api/analysis/cancel/<id>` endpoint answers 200 with
`cancelled: true` exactly when an active entry existed for the id (whose
token is then cancelled, the entry kept), and 404 with `cancelled: false`
otherwise, leaving the registry untouched; the not-found case flows through
the boolean result of `cancel_request`, which is a total function, not an
exception. -/
theorem cancel_endpoint_found_vs_notfound (st : CancellationManager)
    (id : String) :
    (isActive st id = true →
      (cancel_analysis st id).1 = (200, true) ∧
      findToken (cancel_analysis st id).2 id = some true) ∧
    (isActive st id = false →
      (cancel_analysis st id).1 = (404, false) ∧
      (cancel_analysis st id).2 = st) := by
  constructor
  · intro h
    unfold isActive at h
    rcases hf : findToken st id with _ | c
    · rw [hf] at h
      simp at h
    · constructor
      · simp [cancel_analysis, cancel_request, hf]
      · unfold cancel_analysis cancel_request
        rw [hf]
        simp only
        unfold findToken at hf ⊢
        simp [lookupFlag_set, hf]
  · intro h
    unfold isActive at h
    rcases hf : findToken st id with _ | c
    · constructor <;> simp [cancel_analysis, cancel_request, hf]
    · rw [hf] at h
      simp at h

/-- Closed instance of the C2 theorem: with active set containing only `a`,
cancelling `a` answers 200/true and cancels its token; cancelling `b`
answers 404/false and leaves the registry unchanged. -/
theorem cancel_endpoint_found_vs_notfound_witness :
    ((cancel_analysis ⟨[("a", false)]⟩ "a").1 = (200, true) ∧
      findToken (cancel_analysis ⟨[("a", false)]⟩ "a").2 "a" = some true) ∧
    ((cancel_analysis ⟨[("a", false)]⟩ "b").1 = (404, false) ∧
      (cancel_analysis ⟨[("a", false)]⟩ "b").2 = ⟨[("a", false)]⟩) :=
  ⟨(cancel_endpoint_found_vs_notfound ⟨[("a", false)]⟩ "a").1 rfl,
   (cancel_endpoint_found_vs_notfound ⟨[("a", false)]⟩ "b").2 rfl⟩

/-- C5: one snapshot underlies the `/api/analysis/active` response: the
`count` field is the length of the very `active_requests` list returned, and
that list is the registry's active-id snapshot of size `activeCount`. -/
theorem active_endpoint_count_matches (st : CancellationManager) :
    (get_active_requests st).2 = (get_active_requests st).1.length ∧
    (get_active_requests st).1 = get_active_request_ids st ∧
    (get_active_requests st).2 = get_active_request_count st := by
  refine ⟨rfl, rfl, ?_⟩
  simp [get_active_requests, get_active_request_ids, get_active_request_count]

/-- The ids whose tokens are cancelled in a registry state. -/
def cancelledIds (st : CancellationManager) : List String :=
  (st.entries.filter (fun p => p.2)).map Prod.fst

/-- C3 counterexample: with active set containing only `a` (no token yet
cancelled) and a request `d` registered between the endpoint's count read
and its cancel-all call, the `/api/analysis/cancel-all` endpoint reports
`cancelled_count = 1` while the call cancels the two tokens of `a` and `d`;
in particular `d`, registered after the count snapshot, is cancelled, and
the reported count is not the number of tokens cancelled by this call. -/
theorem cancel_all_endpoint_counterexample :
    (cancel_all_requests_endpoint ⟨[("a", false)]⟩ ["d"]).1 = 1 ∧
    (cancel_all_requests_endpoint ⟨[("a", false)]⟩ ["d"]).2 = ⟨[("a", true), ("d", true)]⟩ ∧
    cancelledIds (cancel_all_requests_endpoint ⟨[("a", false)]⟩ ["d"]).2 = ["a", "d"] ∧
    findToken (cancel_all_requests_endpoint ⟨[("a", false)]⟩ ["d"]).2 "d" = some true ∧
    cancelledIds ⟨[("a", false)]⟩ = [] := by
  refine ⟨rfl, ?_, rfl, rfl, rfl⟩
  decide

/-- C3 amended: `cancelled_count` equals the number of requests active when
the endpoint read the count; the subsequent cancel-all call cancels the
token of every request then registered — including any request registered
between the endpoint's two manager calls, which is therefore cancelled but
not counted; when no registration interleaves, the endpoint's response and
final state coincide with those of the registry's atomic `cancelAll`, so the
count equals exactly the number cancelled and later registrations are
unaffected. -/
theorem cancel_all_endpoint_amended (st : CancellationManager)
    (interleaved : List String) :
    (cancel_all_requests_endpoint st interleaved).1 = get_active_request_count st ∧
    (cancel_all_requests_endpoint st interleaved).2.entries =
      ((interleaved.foldl register st).entries).map (fun p => (p.1, true)) ∧
    (interleaved = [] →
      cancel_all_requests_endpoint st interleaved = cancel_all_requests st) := by
  refine ⟨rfl, rfl, ?_⟩
  rintro rfl
  rfl

/-- Closed instance of the C3 amended theorem at the singleton registry with
no interleaving. -/
theorem cancel_all_endpoint_amended_witness :
    (cancel_all_requests_endpoint ⟨[("a", false)]⟩ []).1 = 1 ∧
    (cancel_all_requests_endpoint ⟨[("a", false)]⟩ []).2.entries = [("a", true)] ∧
    cancel_all_requests_endpoint ⟨[("a", false)]⟩ [] = cancel_all_requests ⟨[("a", false)]⟩ :=
  ⟨(cancel_all_endpoint_amended ⟨[("a", false)]⟩ []).1,
   (cancel_all_endpoint_amended ⟨[("a", false)]⟩ []).2.1,
   (cancel_all_endpoint_amended ⟨[("a", false)]⟩ []).2.2 rfl⟩

/-- C8: the MCP notification endpoint answers 202 with an empty body for a
`notifications/cancelled` notification carrying a non-empty `requestId`,
whatever the registry contains — the cancellation's success or failure never
changes the response — while a missing `requestId` yields 400; by contrast
the `/cancel/<id>` endpoint's status distinguishes the two cases, 200 for an
active id and 404 otherwise. -/
theorem mcp_notification_202_regardless (st : CancellationManager)
    (rid : String) (h : rid ≠ "") :
    (handle_mcp_notification st
        (some ⟨some "2.0", some "notifications/cancelled", some rid⟩)).1 = (202, "") ∧
    (handle_mcp_notification st
        (some ⟨some "2.0", some "notifications/cancelled", none⟩)).1 =
      (400, "Missing requestId in cancellation notification") ∧
    ((cancel_analysis st rid).1.1 = 200 ↔ isActive st rid = true) ∧
    ((cancel_analysis st rid).1.1 = 404 ↔ isActive st rid = false) := by
  refine ⟨?_, rfl, ?_, ?_⟩
  · simp [handle_mcp_notification, h]
  · unfold isActive
    rcases hf : findToken st rid with _ | c <;>
      simp [cancel_analysis, cancel_request, hf]
  · unfold isActive
    rcases hf : findToken st rid with _ | c <;>
      simp [cancel_analysis, cancel_request, hf]

/-- Closed instance of the C8 theorem on the empty registry with request id
`r1`. -/
theorem mcp_notification_202_regardless_witness :
    (handle_mcp_notification ⟨[]⟩
        (some ⟨some "2.0", some "notifications/cancelled", some "r1"⟩)).1 = (202, "") ∧
    (handle_mcp_notification ⟨[]⟩
        (some ⟨some "2.0", some "notifications/cancelled", none⟩)).1 =
      (400, "Missing requestId in cancellation notification") ∧
    ((cancel_analysis ⟨[]⟩ "r1").1.1 = 200 ↔ isActive ⟨[]⟩ "r1" = true) ∧
    ((cancel_analysis ⟨[]⟩ "r1").1.1 = 404 ↔ isActive ⟨[]⟩ "r1" = false) :=
  mcp_notification_202_regardless ⟨[]⟩ "r1" (by decide)

/-- A string with a non-empty left part is non-empty. -/
theorem append_ne_empty_left (s t : String) (hs : s ≠ "") : s ++ t ≠ "" := by
  intro hc
  apply hs
  obtain ⟨ls⟩ := s
  obtain ⟨lt⟩ := t
  have hd : ls ++ lt = [] := congrArg String.data hc
  rcases List.append_eq_nil.mp hd with ⟨rfl, rfl⟩
  rfl

/-- C9: `GmailService.send_email` is a total function into `EmailResponse`
(every raised exception is caught inside); whenever the response reports
failure it carries a non-empty error message, and whenever it reports
success it carries the id of the message the Gmail API returned. -/
theorem send_email_never_raises (authenticated : Bool)
    (to_addr subject body : String) (api : GmailApiOutcome) :
    ((send_email authenticated to_addr subject body api).success = false →
      ∃ m, (send_email authenticated to_addr subject body api).error = some m ∧ m ≠ "") ∧
    ((send_email authenticated to_addr subject body api).success = true →
      ∃ mid, (send_email authenticated to_addr subject body api).message_id = some mid ∧
        api = GmailApiOutcome.ok mid) := by
  unfold send_email
  split_ifs with h1 h2
  · exact ⟨fun _ => ⟨_, rfl, by decide⟩, fun hs => by simp at hs⟩
  · exact ⟨fun _ => ⟨_, rfl, by decide⟩, fun hs => by simp at hs⟩
  · cases api with
    | ok mid =>
      exact ⟨fun hf => by simp at hf, fun _ => ⟨mid, rfl, rfl⟩⟩
    | httpError code m =>
      refine ⟨fun _ => ⟨_, rfl, ?_⟩, fun hs => by simp at hs⟩
      exact append_ne_empty_left _ _
        (append_ne_empty_left _ _ (append_ne_empty_left _ _ (by decide)))
    | exn m =>
      refine ⟨fun _ => ⟨_, rfl, ?_⟩, fun hs => by simp at hs⟩
      exact append_ne_empty_left _ _ (by decide)

/-- Closed instance of the C9 theorem: an unauthenticated service yields a
failure response with a non-empty error, and an authenticated send whose API
call succeeds yields a success response carrying the returned message id. -/
theorem send_email_never_raises_witness :
    (∃ m, (send_email false "a@b.c" "subj" "text" (GmailApiOutcome.ok "id1")).error =
        some m ∧ m ≠ "") ∧
    (∃ mid, (send_email true "a@b.c" "subj" "text" (GmailApiOutcome.ok "id1")).message_id =
        some mid ∧ GmailApiOutcome.ok "id1" = GmailApiOutcome.ok mid) :=
  ⟨(send_email_never_raises false "a@b.c" "subj" "text" (GmailApiOutcome.ok "id1")).1 rfl,
   (send_email_never_raises true "a@b.c" "subj" "text" (GmailApiOutcome.ok "id1")).2 rfl⟩
